import Mathlib

set_option maxRecDepth 100000

/-!
Verification development for the KMRL railway document processing repository.
The definitions below are shallow embeddings of `kmrl_classifier.py`
(text preprocessing, keyword scoring, KMRL affinity detection, document
classification, category-name formatting) and of the page-merging core of
`process_documents` in `app.py`.  Python floats are modelled by `ℚ`,
Python strings by `String` / `List Char`.
-/

namespace KMRLSpec

/-- Python `sub in text` (substring containment) on character lists.
`"" in text` is `True` in Python, matching `kw.isEmpty` on the nil case. -/
def containsSub (kw : List Char) : List Char → Bool
  | [] => kw.isEmpty
  | t@(_ :: rest) => kw.isPrefixOf t || containsSub kw rest

/-- Fuel-driven non-overlapping substring count; fuel `t.length` suffices for a
non-empty pattern because each step consumes at least one character. -/
def countSubFuel (kw : List Char) : Nat → List Char → Nat
  | 0, _ => 0
  | _ + 1, [] => 0
  | fuel + 1, t@(_ :: rest) =>
    if kw.isPrefixOf t then countSubFuel kw fuel (t.drop kw.length) + 1
    else countSubFuel kw fuel rest

/-- Python `text.count(sub)`: non-overlapping occurrences scanned left to
right; `text.count("")` is `len(text) + 1`. -/
def pyCountSub (kw t : List Char) : Nat :=
  if kw.isEmpty then t.length + 1 else countSubFuel kw t.length t

/-- Python `s.lower()` restricted to ASCII case mapping. -/
def pyLower (l : List Char) : List Char := l.map Char.toLower

/-- Python `' '.join(s.split())`: split on whitespace runs, drop empty
fields, re-join the words with single spaces. -/
def pySplitJoin (l : List Char) : List Char :=
  List.intercalate [' '] ((l.splitOnP Char.isWhitespace).filter (fun w => !w.isEmpty))

/-- A character matched by Python's regex class `\w`: alphanumeric or
underscore (ASCII reading). -/
def isWordChar (c : Char) : Bool := c.isAlphanum || c == '_'

/-- `preprocess_text` (kmrl_classifier.py:149-168): lowercase, collapse
whitespace via `' '.join(text.split())`, then `re.sub(r'[^\w\s]', ' ', text)`
which replaces every character that is neither a word character nor
whitespace by a space. -/
def preprocess (text : List Char) : List Char :=
  (pySplitJoin (pyLower text)).map (fun c => if isWordChar c || c.isWhitespace then c else ' ')

/-- `calculate_keyword_score` (kmrl_classifier.py:170-208): each keyword that
occurs as a substring of the preprocessed text contributes
`1 + 0.1 * occurrence_count`; the running count is divided by the number of
keywords (0 if none), multiplied by the weight and clamped at 1. -/
def calculate_keyword_score (text : String) (keywords : List String) (weight : ℚ) : ℚ :=
  let t := preprocess text.data
  let keyword_count : ℚ := keywords.foldl
    (fun acc kw =>
      let k := pyLower kw.data
      if containsSub k t then acc + 1 + (pyCountSub k t : ℚ) * (1 / 10) else acc) 0
  let total_keywords := keywords.length
  let base_score : ℚ := if 0 < total_keywords then keyword_count / (total_keywords : ℚ) else 0
  min (base_score * weight) 1

/-- Per-category configuration from `railway_categories`
(kmrl_classifier.py:19-140): keyword list and weight. -/
structure CategoryConfig where
  keywords : List String
  weight : ℚ
deriving DecidableEq

/-- The fixed category model (kmrl_classifier.py:19-140), in declaration
order (Python dicts preserve insertion order).  Decimal weights are written
as exact rationals: 1.2 = 12/10 and so on. -/
def railway_categories : List (String × CategoryConfig) := [
  ("safety_manual", ⟨[
    "safety", "hazard", "risk", "emergency", "accident", "incident",
    "emergency response", "safety protocol", "hazard identification",
    "risk assessment", "safety training", "accident prevention",
    "occupational safety", "personal protective equipment", "ppe",
    "emergency evacuation", "fire safety", "first aid"], 12/10⟩),
  ("technical_documentation", ⟨[
    "specifications", "technical", "engineering", "maintenance", "repair",
    "technical specifications", "engineering drawings", "maintenance manual",
    "repair procedures", "technical standards", "system specifications",
    "component specifications", "installation guide", "troubleshooting",
    "calibration", "testing procedures", "quality control"], 1⟩),
  ("operational_procedures", ⟨[
    "operation", "procedure", "protocol", "guideline", "instruction",
    "operating procedures", "standard operating procedure", "sop",
    "operational guidelines", "work instructions", "process flow",
    "operational manual", "duty instructions", "shift procedures",
    "operational safety", "control procedures"], 11/10⟩),
  ("schedule_timetable", ⟨[
    "schedule", "timetable", "departure", "arrival", "route",
    "train schedule", "service timetable", "departure time",
    "arrival time", "route map", "frequency", "service interval",
    "peak hours", "off-peak", "holiday schedule", "special service"], 9/10⟩),
  ("compliance_regulatory", ⟨[
    "compliance", "regulation", "standard", "requirement", "audit",
    "regulatory compliance", "safety standards", "industry standards",
    "compliance audit", "regulatory requirements", "certification",
    "inspection", "quality assurance", "standard procedures",
    "legal requirements", "regulatory framework"], 11/10⟩),
  ("training_manual", ⟨[
    "training", "education", "course", "certification", "qualification",
    "training manual", "training program", "educational material",
    "certification course", "qualification requirements", "skill development",
    "competency", "learning objectives", "training schedule",
    "assessment", "examination", "practical training"], 8/10⟩),
  ("infrastructure", ⟨[
    "track", "signal", "station", "platform", "bridge", "tunnel",
    "railway track", "signaling system", "station infrastructure",
    "platform design", "bridge construction", "tunnel engineering",
    "overhead lines", "power supply", "track maintenance",
    "signal maintenance", "infrastructure development",
    "civil engineering", "structural design"], 1⟩),
  ("rolling_stock", ⟨[
    "locomotive", "coach", "wagon", "train", "vehicle",
    "rolling stock", "train composition", "locomotive maintenance",
    "coach design", "passenger coach", "freight wagon",
    "multiple unit", "emu", "dmu", "electric multiple unit",
    "diesel multiple unit", "bogies", "traction system"], 1⟩),
  ("passenger_services", ⟨[
    "passenger", "ticket", "booking", "service", "customer",
    "passenger services", "ticketing system", "reservation",
    "customer service", "passenger amenities", "accessibility",
    "passenger information", "announcements", "passenger safety",
    "boarding", "alighting", "passenger comfort"], 7/10⟩),
  ("freight_operations", ⟨[
    "freight", "cargo", "goods", "loading", "unloading",
    "freight operations", "cargo handling", "goods transportation",
    "loading procedures", "unloading procedures", "freight yard",
    "cargo terminal", "container handling", "bulk cargo",
    "freight scheduling", "goods wagon"], 8/10⟩),
  ("signaling_communication", ⟨[
    "signaling", "communication", "control", "interlocking", "block",
    "signal control", "communication system", "train control",
    "automatic block signaling", "centralized traffic control",
    "radio communication", "data communication", "control room",
    "dispatching", "train detection", "level crossing"], 11/10⟩),
  ("electrical_systems", ⟨[
    "electrical", "power", "traction", "substation", "overhead",
    "electrical system", "power supply", "traction power",
    "electrical substation", "overhead equipment", "pantograph",
    "electrical maintenance", "power distribution", "25kv",
    "electrical safety", "earthing", "insulation"], 1⟩)]

/-- `self.kmrl_keywords` (kmrl_classifier.py:143-147). -/
def kmrl_keywords : List String := [
  "kmrl", "kochi metro", "kerala", "metro rail", "rapid transit",
  "kochi", "ernakulam", "aluva", "maharajas college", "palarivattom",
  "edappally", "kalamassery", "cochin", "metro station"]

/-- `detect_kmrl_content` (kmrl_classifier.py:210-229): number of distinct
KMRL keywords present in the preprocessed text, over 14, times 2, clamped
at 1. -/
def detect_kmrl_content (text : String) : ℚ :=
  let t := preprocess text.data
  let kmrl_mentions : Nat := kmrl_keywords.foldl
    (fun n kw => if containsSub (pyLower kw.data) t then n + 1 else n) 0
  if 0 < kmrl_keywords.length then
    min ((kmrl_mentions : ℚ) / (kmrl_keywords.length : ℚ) * 2) 1
  else 0

/-- Python `round(x, 2)` modelled over ℚ as round-half-up to 2 decimal
places.  (Python's float round is round-half-to-even; the two agree except
at exact half-way values, which none of the verified facts touch.) -/
def round2 (x : ℚ) : ℚ := ((round (x * 100) : ℤ) : ℚ) / 100

/-- One element of the list returned by `classify_document`
(kmrl_classifier.py:284-296): the Python dict with keys `category`,
`confidence` and `kmrl_relevance`. -/
structure ClassificationResult where
  category : String
  confidence : ℚ
  kmrl_relevance : ℚ
deriving DecidableEq

/-- Python `s.strip()` (whitespace from both ends), on character lists. -/
def pyStrip (l : List Char) : List Char :=
  ((l.dropWhile Char.isWhitespace).reverse.dropWhile Char.isWhitespace).reverse

/-- The `f"{text} {summary}"` combination (kmrl_classifier.py:243). -/
def combinedText (text summary : String) : String := text ++ " " ++ summary

/-- Python `s.title()` (kmrl_classifier.py:311): the first letter of each
run of letters is uppercased, subsequent letters lowercased, other
characters are kept and reset the word state. -/
def pyTitleGo (prevAlpha : Bool) : List Char → List Char
  | [] => []
  | c :: rest =>
    if c.isAlpha then
      (if prevAlpha then c.toLower else c.toUpper) :: pyTitleGo true rest
    else c :: pyTitleGo false rest

/-- Python `s.title()` on a character list. -/
def pyTitle (l : List Char) : List Char := pyTitleGo false l

/-- Fuel-driven engine of Python `s.replace(old, new)` for non-empty `old`:
non-overlapping occurrences replaced left to right. -/
def replaceFuel (old new : List Char) : Nat → List Char → List Char
  | 0, t => t
  | _ + 1, [] => []
  | fuel + 1, t@(c :: rest) =>
    if old.isPrefixOf t then new ++ replaceFuel old new fuel (t.drop old.length)
    else c :: replaceFuel old new fuel rest

/-- Python `s.replace(old, new)`; for an empty `old` Python inserts `new`
around every character. -/
def pyReplace (s old new : List Char) : List Char :=
  if old.isEmpty then new ++ s.flatMap (fun c => c :: new)
  else replaceFuel old new s.length s

/-- The `replacements` dict of `format_category_name`
(kmrl_classifier.py:314-321), in insertion order. -/
def replacementTable : List (List Char × List Char) := [
  ("Sop".data, "SOP".data), ("Ppe".data, "PPE".data),
  ("Emu".data, "EMU".data), ("Dmu".data, "DMU".data),
  ("Kmrl".data, "KMRL".data), ("25Kv".data, "25kV".data)]

/-- `format_category_name` (kmrl_classifier.py:300-326): replace
underscores with spaces, Python title-case, then apply each table entry as
a plain substring replacement (`str.replace`), in order. -/
def format_category_name (category : String) : String :=
  let formatted := pyTitle (pyReplace category.data ['_'] [' '])
  ⟨replacementTable.foldl (fun s p => pyReplace s p.1 p.2) formatted⟩

/-- The `category_scores` mapping (kmrl_classifier.py:253-261): one score
per category, in declaration order. -/
def categoryScores (combined : String) : List (String × ℚ) :=
  railway_categories.map (fun p => (p.1, calculate_keyword_score combined p.2.keywords p.2.weight))

/-- The `significant_categories` filter (kmrl_classifier.py:267-270):
categories whose score strictly exceeds 0.1. -/
def significantCategories (combined : String) : List (String × ℚ) :=
  (categoryScores combined).filter (fun p => 1/10 < p.2)

/-- Stable insertion of one scored category into a list sorted by score
descending: the element goes before the first strictly smaller score, after
all ties. -/
def insertByScoreDesc (x : String × ℚ) : List (String × ℚ) → List (String × ℚ)
  | [] => [x]
  | y :: ys => if y.2 ≤ x.2 then x :: y :: ys else y :: insertByScoreDesc x ys

/-- Stable sort by score descending, modelling
`significant_categories.sort(key=lambda x: x[1], reverse=True)`
(kmrl_classifier.py:273); Python's sort is stable, and a stable sort is
extensionally unique, so insertion sort is a faithful model. -/
def sortByScoreDesc (l : List (String × ℚ)) : List (String × ℚ) :=
  l.foldr insertByScoreDesc []

/-- The sorted significant-category list of a `classify_document` call. -/
def sortedSignificant (combined : String) : List (String × ℚ) :=
  sortByScoreDesc (significantCategories combined)

/-- `classify_document` (kmrl_classifier.py:231-298).  Blank combined text
short-circuits to the Unknown Document result; otherwise the top 5 sorted
significant categories are reported with the KMRL boost and 2-decimal
rounding, falling back to General Railway Document when none is
significant. -/
def classify_document (text : String) (summary : String) : List ClassificationResult :=
  let combined_text := combinedText text summary
  if pyStrip combined_text.data = [] then
    [{ category := "Unknown Document", confidence := 1/10, kmrl_relevance := 0 }]
  else
    let kmrl_score := detect_kmrl_content combined_text
    let significant := sortedSignificant combined_text
    if significant = [] then
      [{ category := "General Railway Document",
         confidence := if 1/5 < kmrl_score then 3/10 else 1/5,
         kmrl_relevance := round2 kmrl_score }]
    else
      (significant.take 5).map (fun p =>
        let score := if 3/10 < kmrl_score then min (p.2 * (1 + kmrl_score * (1/2))) 1 else p.2
        { category := format_category_name p.1,
          confidence := round2 score,
          kmrl_relevance := round2 kmrl_score })

/-- A page as emitted by the OCR collaborator (`extract_document_text` in
app.py:114-118 returns a mapping of per-file page numbers to page dicts
holding at least text and language). -/
structure PageIn where
  text : String
  language : String
deriving DecidableEq

/-- A page after the renumbering loop of `process_documents`
(app.py:121-125): the OCR page dict with `global_page_num` and
`source_file` attached. -/
structure PageOut where
  page : PageIn
  global_page_num : Nat
  source_file : String
deriving DecidableEq

/-- One element of the `files` list of `process_documents` together with
the outcome of its extraction. `extraction = none` models a file whose
path does not exist (app.py:109-110) or whose `extract_document_text` call
raises (app.py:130-132); both are skipped with `continue`.  A successful
extraction carries the OCR page list in emission order and the file's
combined text. -/
structure FileResult where
  original_name : String
  extraction : Option (List PageIn × String)
deriving DecidableEq

/-- The pages a file contributes: none when it is skipped. -/
def extractedPages (f : FileResult) : List PageIn :=
  match f.extraction with
  | none => []
  | some e => e.1

/-- The inner renumbering loop of `process_documents` (app.py:121-125):
each page receives the current counter as `global_page_num` and the file's
original name as `source_file`; the counter increments per page. -/
def numberPages (source : String) (counter : Nat) : List PageIn → List PageOut
  | [] => []
  | p :: ps => ⟨p, counter, source⟩ :: numberPages source (counter + 1) ps

/-- The separator written before each file's text (app.py:127). -/
def docSeparator (name : String) : String :=
  "\n\n--- Document: " ++ name ++ " ---\n\n"

/-- The file loop of `process_documents` (app.py:106-132), carried state
`(all_page_texts, combined_text, page_counter)`.  The Python dict
`all_page_texts` keyed by the consecutive counter values is modelled as a
list in insertion order. -/
def mergeFiles : List FileResult → List PageOut → String → Nat → List PageOut × String
  | [], pages, combined, _ => (pages, combined)
  | f :: rest, pages, combined, counter =>
    match f.extraction with
    | none => mergeFiles rest pages combined counter
    | some (pgs, ftext) =>
      mergeFiles rest (pages ++ numberPages f.original_name counter pgs)
        (combined ++ docSeparator f.original_name ++ ftext) (counter + pgs.length)

/-- The aggregation core of `process_documents` (app.py:101-135): run the
file loop from an empty state with the counter at 1; if no pages were
collected, fail with the HTTP-500 error message of app.py:135, otherwise
return the merged pages and combined text (consumed by summarization and
classification downstream). -/
def process_documents (files : List FileResult) : Except String (List PageOut × String) :=
  let r := mergeFiles files [] "" 1
  if r.1.isEmpty then Except.error "Failed to extract text from any documents"
  else Except.ok r

/-- Claim C1's notion of normalization, taken from its words: lowercase,
collapse whitespace, then REMOVE every character that is neither
alphanumeric nor whitespace (the code instead replaces non-word characters
by spaces and also keeps underscores). -/
def claimNormalize (text : List Char) : List Char :=
  (pySplitJoin (pyLower text)).filter (fun c => c.isAlphanum || c.isWhitespace)

/-- The keyword-score formula of claim C1 over claim C1's normalization:
`min((sum over present keywords of (1 + 0.1 * occurrences)) / |K| * w, 1)`,
0 when the keyword list is empty. -/
def claimKeywordScore (text : String) (keywords : List String) (weight : ℚ) : ℚ :=
  if keywords.isEmpty then 0 else
    let t := claimNormalize text.data
    let total : ℚ := ((keywords.filter (fun kw => containsSub (pyLower kw.data) t)).map
      (fun kw => 1 + (pyCountSub (pyLower kw.data) t : ℚ) * (1 / 10))).sum
    min (total / (keywords.length : ℚ) * weight) 1

/-- The keyword-score formula of claim C1 over the code's actual
normalization (`preprocess`): the amended form of C1. -/
def amendedKeywordScore (text : String) (keywords : List String) (weight : ℚ) : ℚ :=
  if keywords.isEmpty then 0 else
    let t := preprocess text.data
    let total : ℚ := ((keywords.filter (fun kw => containsSub (pyLower kw.data) t)).map
      (fun kw => 1 + (pyCountSub (pyLower kw.data) t : ℚ) * (1 / 10))).sum
    min (total / (keywords.length : ℚ) * weight) 1

/-- The boost formula stated by claim C5 / spec 4.3 step 7: when the shared
affinity strictly exceeds 0.3 the score becomes
`min(score * (1 + affinity * 0.5), 1)`, otherwise it is unchanged. -/
def specBoostedScore (score affinity : ℚ) : ℚ :=
  if 3/10 < affinity then min (score * (1 + affinity * (1/2))) 1 else score

/-- The acronym override table as claim C9 words it: lowercase acronym ids
to their display forms. -/
def specAcronymTable : List (List Char × List Char) := [
  ("sop".data, "SOP".data), ("ppe".data, "PPE".data),
  ("emu".data, "EMU".data), ("dmu".data, "DMU".data),
  ("kmrl".data, "KMRL".data), ("25kv".data, "25kV".data)]

/-- Whole-word acronym override on a single title-cased word: the word is
replaced when it matches a table key case-insensitively, as claim C9's
"whole-word replacements" read. -/
def specOverrideWord (w : List Char) : List Char :=
  match specAcronymTable.find? (fun p => p.1 == pyLower w) with
  | some p => p.2
  | none => w

/-- Display-name formatting claimed by C9: separators to spaces,
title-case, then the acronym table applied as whole-word replacements. -/
def specWholeWordFormat (category : String) : String :=
  let titled := pyTitle (pyReplace category.data ['_'] [' '])
  ⟨List.intercalate [' '] ((titled.splitOnP (· == ' ')).map specOverrideWord)⟩

/-- Declaration index of a result's displayed category in the fixed model:
the position of the matching formatted category name, used to state claim
C3's tie-break order. -/
def resultDeclIndex (r : ClassificationResult) : Nat :=
  (railway_categories.map (fun p => format_category_name p.1)).indexOf r.category

/-- Claim C3's ordering property of a result list: at most 5 entries,
sorted by confidence descending, ties broken by first-declared-wins
declaration order. -/
def claimOrderProperty (res : List ClassificationResult) : Prop :=
  res.length ≤ 5 ∧ res.Pairwise (fun a b =>
    b.confidence < a.confidence ∨
    (a.confidence = b.confidence ∧ resultDeclIndex a < resultDeclIndex b))

/-- Text of the C3 counterexample: safety_manual gets score
2.2/18*1.2 = 11/75 and technical_documentation 2.5/17 = 5/34; the second
is strictly larger yet both round to 0.15. -/
def tieText : String :=
  "hazard incident troubleshooting calibration calibration calibration calibration"

/-- Text whose only significant category is safety_manual and whose KMRL
affinity is 3/7 > 0.3, activating the boost; used to witness claim C5. -/
def boostText : String := "safety hazard risk aluva kochi kerala"

/-- Text containing no model keyword at all; used to witness claim C7's
fallback behaviour. -/
def noKeywordText : String := "zzz qqq"

/-- Concrete OCR outcomes used to witness claims C2 and C8. -/
def fileA : FileResult :=
  ⟨"A.pdf", some ([⟨"a one", "eng"⟩, ⟨"a two", "mal"⟩, ⟨"a three", "eng"⟩], "textA")⟩

/-- Second successful concrete file for the C2 witness. -/
def fileB : FileResult := ⟨"B.pdf", some ([⟨"b one", "eng"⟩, ⟨"b two", "eng"⟩], "textB")⟩

/-- A file whose extraction failed. -/
def fileFail : FileResult := ⟨"bad.pdf", none⟩

/-- Expected merged pages for `[fileA, fileFail, fileB]`: A's three pages
numbered 1..3, the failed file skipped without a gap, B's two pages
numbered 4..5. -/
def mergedPagesABF : List PageOut := [
  ⟨⟨"a one", "eng"⟩, 1, "A.pdf"⟩, ⟨⟨"a two", "mal"⟩, 2, "A.pdf"⟩,
  ⟨⟨"a three", "eng"⟩, 3, "A.pdf"⟩,
  ⟨⟨"b one", "eng"⟩, 4, "B.pdf"⟩, ⟨⟨"b two", "eng"⟩, 5, "B.pdf"⟩]

/-- Expected combined text for `[fileA, fileFail, fileB]`. -/
def mergedTextABF : String :=
  "\n\n--- Document: A.pdf ---\n\ntextA\n\n--- Document: B.pdf ---\n\ntextB"

theorem sum_map_const {α : Type} (l : List α) (c : ℚ) :
    (l.map (fun _ => c)).sum = l.length * c := by
  induction l with
  | nil => simp
  | cons x rest ih => simp [ih]; ring

theorem keywordCount_foldl (t : List Char) (keywords : List String) :
    ∀ a : ℚ,
    keywords.foldl (fun acc kw =>
      if containsSub (pyLower kw.data) t then
        acc + 1 + (pyCountSub (pyLower kw.data) t : ℚ) * (1 / 10)
      else acc) a
    = a + ((keywords.filter (fun kw => containsSub (pyLower kw.data) t)).map
        (fun kw => 1 + (pyCountSub (pyLower kw.data) t : ℚ) * (1 / 10))).sum := by
  induction keywords with
  | nil => intro a; simp
  | cons kw rest ih =>
    intro a
    by_cases h : containsSub (pyLower kw.data) t = true
    · simp only [List.foldl_cons, List.filter_cons, h, if_true, List.map_cons, List.sum_cons]
      rw [ih]; ring
    · simp only [List.foldl_cons, List.filter_cons, h, if_false, Bool.false_eq_true]
      rw [ih]

/-- Claim C1: the keyword score is the claimed formula, but over the
code's normalization, which replaces each character that is neither a word
character (alphanumeric or underscore) nor whitespace by a space after
collapsing whitespace — it does not remove non-alphanumeric characters. -/
theorem calculate_keyword_score_eq_formula (text : String) (keywords : List String) (weight : ℚ) :
    calculate_keyword_score text keywords weight = amendedKeywordScore text keywords weight := by
  unfold calculate_keyword_score amendedKeywordScore
  rcases keywords with _ | ⟨kw, rest⟩
  · norm_num
  · simp only [List.isEmpty_cons, List.length_cons, if_false, Bool.false_eq_true,
      Nat.zero_lt_succ, if_true]
    rw [keywordCount_foldl, zero_add, div_mul_eq_mul_div, mul_comm, mul_div_assoc]

/-- Claim C1 (counterexample): with the claim's removal-style
normalization the keyword "fire safety" does not match the text
"fire.safety" (it becomes "firesafety"), while the code's
space-substitution normalization makes it match, so the claimed formula
disagrees with the code. -/
theorem keyword_score_claim_normalization_counterexample :
    calculate_keyword_score "fire.safety" ["fire safety"] 1 = 1 ∧
    claimKeywordScore "fire.safety" ["fire safety"] 1 = 0 ∧
    calculate_keyword_score "fire.safety" ["fire safety"] 1 ≠
      claimKeywordScore "fire.safety" ["fire safety"] 1 := by
  refine ⟨?_, ?_, ?_⟩ <;> with_unfolding_all decide

/-- Claim C4: when every keyword of a non-empty list occurs exactly once
in the normalized text, the score is `min(1.1 * w, 1)` — each present
keyword contributes `1 + 0.1`, not `1` — rather than the claimed
`min(w, 1)`. -/
theorem keyword_score_all_once (text : String) (keywords : List String) (weight : ℚ)
    (hne : keywords ≠ [])
    (h1 : ∀ kw ∈ keywords, containsSub (pyLower kw.data) (preprocess text.data) = true ∧
      pyCountSub (pyLower kw.data) (preprocess text.data) = 1) :
    calculate_keyword_score text keywords weight = min ((11/10) * weight) 1 := by
  unfold calculate_keyword_score
  have hlen : 0 < keywords.length := List.length_pos.mpr hne
  have hmap : keywords.map
        (fun kw => 1 + (pyCountSub (pyLower kw.data) (preprocess text.data) : ℚ) * (1 / 10))
      = keywords.map (fun _ => (11/10 : ℚ)) :=
    List.map_congr_left (fun kw hkw => by rw [(h1 kw hkw).2]; norm_num)
  have hq : (keywords.length : ℚ) ≠ 0 := Nat.cast_ne_zero.mpr (by omega)
  simp only [hlen, if_true]
  rw [keywordCount_foldl, zero_add,
    List.filter_eq_self.mpr (fun kw hkw => (h1 kw hkw).1), hmap, sum_map_const]
  have hA : (keywords.length : ℚ) * (11 / 10) / (keywords.length : ℚ) * weight
      = 11 / 10 * weight := by
    field_simp
    ring
  rw [hA]

/-- Claim C4 (witness): text "alpha" contains the single keyword "alpha"
exactly once, and the score is `min(1.1 * 0.8, 1) = 0.88`. -/
theorem keyword_score_all_once_witness :
    (["alpha"] : List String) ≠ [] ∧
    calculate_keyword_score "alpha" ["alpha"] (8/10) = min ((11/10) * (8/10) : ℚ) 1 :=
  ⟨by decide, keyword_score_all_once "alpha" ["alpha"] (8/10) (by decide)
    (by with_unfolding_all decide)⟩

/-- Claim C4 (counterexample): for the keyword list ["alpha"], weight 0.8
and text "alpha" (each keyword present exactly once) the score is 0.88,
which differs from the claimed `min(w, 1) = 0.8` by 0.08 — far beyond any
floating tolerance. -/
theorem keyword_score_once_not_min_weight :
    calculate_keyword_score "alpha" ["alpha"] (8/10) = 22/25 ∧
    min ((8:ℚ)/10) 1 = 8/10 ∧
    1/100 < calculate_keyword_score "alpha" ["alpha"] (8/10) - min ((8:ℚ)/10) 1 := by
  refine ⟨?_, ?_, ?_⟩ <;> with_unfolding_all decide

/-- Claim C6: when the combined `text + " " + summary` strips to nothing
(empty or whitespace-only), classify short-circuits to the single Unknown
Document result with confidence 0.1 and relevance 0.0. -/
theorem classify_blank_input (text summary : String)
    (h : pyStrip (combinedText text summary).data = []) :
    classify_document text summary =
      [{ category := "Unknown Document", confidence := 1/10, kmrl_relevance := 0 }] := by
  unfold classify_document
  simp [h]

/-- Claim C6 (witness): `classify("", "")` hits the blank short-circuit. -/
theorem classify_blank_input_witness :
    pyStrip (combinedText "" "").data = [] ∧
    classify_document "" "" =
      [{ category := "Unknown Document", confidence := 1/10, kmrl_relevance := 0 }] :=
  ⟨by decide, classify_blank_input "" "" (by decide)⟩

/-- Claim C7: on non-blank input with no category scoring strictly above
0.1, classify returns exactly the General Railway Document fallback, with
confidence 0.3 when the KMRL affinity strictly exceeds 0.2 and 0.2
otherwise, and the rounded affinity as relevance. -/
theorem classify_fallback_result (text summary : String)
    (hb : ¬ pyStrip (combinedText text summary).data = [])
    (hs : ∀ p ∈ categoryScores (combinedText text summary), p.2 ≤ 1/10) :
    classify_document text summary =
      [{ category := "General Railway Document",
         confidence :=
           if 1/5 < detect_kmrl_content (combinedText text summary) then 3/10 else 1/5,
         kmrl_relevance := round2 (detect_kmrl_content (combinedText text summary)) }] := by
  have hfilter : significantCategories (combinedText text summary) = [] :=
    List.filter_eq_nil_iff.mpr (fun p hp => by simpa using not_lt.mpr (hs p hp))
  have hsig : sortedSignificant (combinedText text summary) = [] := by
    rw [sortedSignificant, hfilter]; rfl
  unfold classify_document
  simp [hb, hsig]

/-- Claim C7 (witness): the text "zzz qqq" contains no model keyword, so
every category scores 0 and the fallback fires with affinity 0. -/
theorem classify_fallback_result_witness :
    classify_document noKeywordText "" =
      [{ category := "General Railway Document",
         confidence :=
           if 1/5 < detect_kmrl_content (combinedText noKeywordText "") then 3/10 else 1/5,
         kmrl_relevance := round2 (detect_kmrl_content (combinedText noKeywordText "")) }] :=
  classify_fallback_result noKeywordText "" (by decide) (by with_unfolding_all decide)

/-- Claim C10: classify always returns at least one result: the blank
short-circuit, the top-5 mapping of a non-empty significant list, and the
fallback each produce a non-empty list. -/
theorem classify_nonempty (text summary : String) :
    classify_document text summary ≠ [] := by
  unfold classify_document
  by_cases hb : pyStrip (combinedText text summary).data = []
  · simp [hb]
  · by_cases hsig : sortedSignificant (combinedText text summary) = []
    · simp [hb, hsig]
    · obtain ⟨p, rest, hpr⟩ := List.exists_cons_of_ne_nil hsig
      simp [hb, hpr]

/-- Claim C5: on non-blank input, each reported result of the significant
branch carries `round2 (specBoostedScore score affinity)` as confidence —
the boost applies exactly when the shared affinity strictly exceeds 0.3 —
and every result (boosted or not) reports the affinity rounded to two
decimals; moreover the claimed example `score 0.5, affinity 0.4 ↦ 0.60`
holds for the boost formula. -/
theorem classify_boost_and_rounding :
    (∀ text summary,
      ¬ pyStrip (combinedText text summary).data = [] →
      ((sortedSignificant (combinedText text summary) ≠ [] →
        classify_document text summary =
          ((sortedSignificant (combinedText text summary)).take 5).map (fun p =>
            { category := format_category_name p.1,
              confidence :=
                round2 (specBoostedScore p.2 (detect_kmrl_content (combinedText text summary))),
              kmrl_relevance := round2 (detect_kmrl_content (combinedText text summary)) })) ∧
       ∀ r ∈ classify_document text summary,
         r.kmrl_relevance = round2 (detect_kmrl_content (combinedText text summary)))) ∧
    round2 (specBoostedScore (1/2) (2/5)) = 3/5 := by
  constructor
  · intro text summary hb
    constructor
    · intro hsig
      unfold classify_document
      simp only [hb, if_false, hsig, specBoostedScore]
    · intro r hr
      unfold classify_document at hr
      by_cases hsig : sortedSignificant (combinedText text summary) = []
      · simp [hb, hsig] at hr
        rw [hr]
      · simp only [hb, if_false, hsig, if_neg hsig, List.mem_map] at hr
        obtain ⟨p, _, hp⟩ := hr
        rw [← hp]
  · with_unfolding_all decide

/-- Claim C5 (witness): for the text "safety hazard risk aluva kochi
kerala" the affinity is 3/7 > 0.3, the only significant category is
safety_manual, and the reported confidence is the boosted rounded score. -/
theorem classify_boost_and_rounding_witness :
    ¬ pyStrip (combinedText boostText "").data = [] ∧
    classify_document boostText "" =
      ((sortedSignificant (combinedText boostText "")).take 5).map (fun p =>
        { category := format_category_name p.1,
          confidence :=
            round2 (specBoostedScore p.2 (detect_kmrl_content (combinedText boostText ""))),
          kmrl_relevance := round2 (detect_kmrl_content (combinedText boostText "")) }) :=
  ⟨by decide,
   (classify_boost_and_rounding.1 boostText "" (by decide)).1 (by with_unfolding_all decide)⟩

theorem mem_insertByScoreDesc {x z : String × ℚ} :
    ∀ {l : List (String × ℚ)}, z ∈ insertByScoreDesc x l → z = x ∨ z ∈ l
  | [], h => by simpa [insertByScoreDesc] using h
  | y :: ys, h => by
    rw [insertByScoreDesc] at h
    by_cases hc : y.2 ≤ x.2
    · rw [if_pos hc] at h
      exact List.mem_cons.mp h
    · rw [if_neg hc] at h
      rcases List.mem_cons.mp h with h | h
      · exact Or.inr (h ▸ List.mem_cons_self y ys)
      · rcases mem_insertByScoreDesc h with h | h
        · exact Or.inl h
        · exact Or.inr (List.mem_cons_of_mem y h)

theorem pairwise_insertByScoreDesc {x : String × ℚ} :
    ∀ {l : List (String × ℚ)}, l.Pairwise (fun a b => b.2 ≤ a.2) →
      (insertByScoreDesc x l).Pairwise (fun a b => b.2 ≤ a.2)
  | [], _ => by simp [insertByScoreDesc]
  | y :: ys, h => by
    rw [insertByScoreDesc]
    rcases List.pairwise_cons.mp h with ⟨hy, hys⟩
    by_cases hc : y.2 ≤ x.2
    · rw [if_pos hc]
      refine List.pairwise_cons.mpr ⟨?_, h⟩
      intro z hz
      rcases List.mem_cons.mp hz with rfl | hz
      · exact hc
      · exact le_trans (hy z hz) hc
    · rw [if_neg hc]
      refine List.pairwise_cons.mpr ⟨?_, pairwise_insertByScoreDesc hys⟩
      intro z hz
      rcases mem_insertByScoreDesc hz with rfl | hz
      · exact le_of_not_le hc
      · exact hy z hz

theorem sortByScoreDesc_pairwise (l : List (String × ℚ)) :
    (sortByScoreDesc l).Pairwise (fun a b => b.2 ≤ a.2) := by
  induction l with
  | nil => simp [sortByScoreDesc]
  | cons x rest ih =>
    rw [sortByScoreDesc, List.foldr_cons]
    exact pairwise_insertByScoreDesc ih

theorem round2_mono {x y : ℚ} (h : x ≤ y) : round2 x ≤ round2 y := by
  unfold round2
  have hr : round (x * 100) ≤ round (y * 100) := by
    rw [round_eq, round_eq]
    exact Int.floor_mono (by linarith)
  have hr' : ((round (x * 100) : ℤ) : ℚ) ≤ ((round (y * 100) : ℤ) : ℚ) := by
    exact_mod_cast hr
  linarith

theorem boostRound_mono (k : ℚ) {x y : ℚ} (h : x ≤ y) :
    round2 (if 3/10 < k then min (x * (1 + k * (1/2))) 1 else x) ≤
    round2 (if 3/10 < k then min (y * (1 + k * (1/2))) 1 else y) := by
  by_cases hk : (3:ℚ)/10 < k
  · rw [if_pos hk, if_pos hk]
    exact round2_mono (min_le_min (mul_le_mul_of_nonneg_right h (by linarith)) le_rfl)
  · rw [if_neg hk, if_neg hk]
    exact round2_mono h

/-- Claim C3: classify returns at most 5 results and the reported
confidences are weakly descending.  (The post-rounding tie-break by
declaration order fails in general — see the counterexample — because the
sort happens on raw scores before rounding.) -/
theorem classify_at_most_five_sorted (text summary : String) :
    (classify_document text summary).length ≤ 5 ∧
    (classify_document text summary).Pairwise (fun a b => b.confidence ≤ a.confidence) := by
  unfold classify_document
  by_cases hb : pyStrip (combinedText text summary).data = []
  · simp [hb]
  · by_cases hsig : sortedSignificant (combinedText text summary) = []
    · simp [hb, hsig]
    · simp only [hb, if_false, hsig, if_neg hsig]
      constructor
      · rw [List.length_map, List.length_take]
        exact min_le_left 5 _
      · rw [List.pairwise_map]
        have hsorted : (sortedSignificant (combinedText text summary)).Pairwise
            (fun a b => b.2 ≤ a.2) := sortByScoreDesc_pairwise _
        refine ((hsorted.sublist (List.take_sublist 5 _)).imp ?_)
        intro a b hab
        exact boostRound_mono (detect_kmrl_content (combinedText text summary)) hab

/-- Claim C3 (counterexample): on the text
"hazard incident troubleshooting calibration calibration calibration
calibration", safety_manual scores 11/75 and technical_documentation
5/34 > 11/75, both rounding to 0.15, so the returned tie lists the
later-declared technical_documentation first — the claimed
first-declared-wins tie order on reported confidences is violated. -/
theorem classify_tie_break_counterexample :
    classify_document tieText "" =
      [⟨"Technical Documentation", 3/20, 0⟩, ⟨"Safety Manual", 3/20, 0⟩] ∧
    ¬ claimOrderProperty (classify_document tieText "") := by
  have h : classify_document tieText "" =
      [⟨"Technical Documentation", 3/20, 0⟩, ⟨"Safety Manual", 3/20, 0⟩] := by
    with_unfolding_all decide
  refine ⟨h, ?_⟩
  rw [h]
  unfold claimOrderProperty
  with_unfolding_all decide

/-- Claim C9: on every category id of the fixed model the code's display
name agrees with the claimed whole-word formatting (none of the model ids
contains an acronym substring).  On arbitrary strings the overrides act as
plain substring replacements — see the counterexample. -/
theorem format_category_name_model_ids :
    ∀ c ∈ railway_categories.map Prod.fst, format_category_name c = specWholeWordFormat c := by
  with_unfolding_all decide

/-- Claim C9 (witness): the model id "safety_manual" formats identically
under the code and under whole-word overrides. -/
theorem format_category_name_model_ids_witness :
    "safety_manual" ∈ railway_categories.map Prod.fst ∧
    format_category_name "safety_manual" = specWholeWordFormat "safety_manual" :=
  ⟨by with_unfolding_all decide,
   format_category_name_model_ids "safety_manual" (by with_unfolding_all decide)⟩

/-- Claim C9 (counterexample): `format_category_name` applies the override
table with `str.replace`, i.e. substring replacement, so the input
"soprano" becomes "SOPrano"; whole-word application would leave
"Soprano". -/
theorem format_category_name_substring_counterexample :
    format_category_name "soprano" = "SOPrano" ∧
    specWholeWordFormat "soprano" = "Soprano" ∧
    format_category_name "soprano" ≠ specWholeWordFormat "soprano" := by
  refine ⟨?_, ?_, ?_⟩ <;> with_unfolding_all decide

theorem numberPages_length (s : String) :
    ∀ (c : Nat) (l : List PageIn), (numberPages s c l).length = l.length
  | _, [] => rfl
  | c, _ :: ps => by
    rw [numberPages, List.length_cons, List.length_cons, numberPages_length s (c + 1) ps]

theorem numberPages_global (s : String) :
    ∀ (c : Nat) (l : List PageIn),
      (numberPages s c l).map (fun p => p.global_page_num) = List.range' c l.length
  | _, [] => rfl
  | c, _ :: ps => by
    rw [numberPages, List.map_cons, numberPages_global s (c + 1) ps]
    rfl

theorem numberPages_source (s : String) :
    ∀ (c : Nat) (l : List PageIn),
      (numberPages s c l).map (fun p => (p.source_file, p.page)) = l.map (fun p => (s, p))
  | _, [] => rfl
  | c, _ :: ps => by
    rw [numberPages, List.map_cons, List.map_cons, numberPages_source s (c + 1) ps]

theorem mergeFiles_spec :
    ∀ (files : List FileResult) (pages : List PageOut) (combined : String) (counter : Nat),
    ∃ nw : List PageOut,
      (mergeFiles files pages combined counter).1 = pages ++ nw ∧
      nw.map (fun p => p.global_page_num) = List.range' counter nw.length ∧
      nw.map (fun p => (p.source_file, p.page)) =
        files.flatMap (fun f => (extractedPages f).map (fun p => (f.original_name, p)))
  | [], pages, combined, counter => ⟨[], by simp [mergeFiles]⟩
  | f :: rest, pages, combined, counter => by
    rw [mergeFiles]
    cases hf : f.extraction with
    | none =>
      obtain ⟨nw, h1, h2, h3⟩ := mergeFiles_spec rest pages combined counter
      refine ⟨nw, h1, h2, ?_⟩
      rw [List.flatMap_cons]
      simpa [extractedPages, hf] using h3
    | some e =>
      obtain ⟨pgs, ftext⟩ := e
      obtain ⟨nw, h1, h2, h3⟩ := mergeFiles_spec rest
        (pages ++ numberPages f.original_name counter pgs)
        (combined ++ docSeparator f.original_name ++ ftext) (counter + pgs.length)
      refine ⟨numberPages f.original_name counter pgs ++ nw, ?_, ?_, ?_⟩
      · rw [h1, List.append_assoc]
      · rw [List.map_append, numberPages_global, h2, List.length_append, numberPages_length,
          List.range'_append_1, Nat.add_comm]
      · rw [List.map_append, numberPages_source, h3, List.flatMap_cons]
        simp [extractedPages, hf]

/-- Claim C2: whenever `process_documents` succeeds, the global page
numbers form the contiguous run 1..total, and the (source_file, page)
sequence is exactly the concatenation, in submission order, of each
successful file's OCR pages in emission order — failed files contribute
nothing and leave no gap. -/
theorem process_documents_page_numbering (files : List FileResult)
    (pages : List PageOut) (combined : String)
    (h : process_documents files = Except.ok (pages, combined)) :
    pages.map (fun p => p.global_page_num) = List.range' 1 pages.length ∧
    pages.map (fun p => (p.source_file, p.page)) =
      files.flatMap (fun f => (extractedPages f).map (fun p => (f.original_name, p))) := by
  obtain ⟨nw, h1, h2, h3⟩ := mergeFiles_spec files [] "" 1
  simp only [process_documents] at h
  by_cases he : (mergeFiles files [] "" 1).1.isEmpty
  · rw [if_pos he] at h
    exact absurd h (by simp)
  · rw [if_neg he] at h
    have hr : mergeFiles files [] "" 1 = (pages, combined) := by
      injection h
    have hp : pages = nw := by
      have h1' := h1
      rw [hr] at h1'
      simpa using h1'
    rw [hp]
    exact ⟨h2, h3⟩

/-- Claim C2 (witness): files A (3 pages), a failed file, then B
(2 pages) merge into pages numbered 1..5, A first then B, with the failed
file contributing nothing. -/
theorem process_documents_page_numbering_witness :
    mergedPagesABF.map (fun p => p.global_page_num) = List.range' 1 mergedPagesABF.length ∧
    mergedPagesABF.map (fun p => (p.source_file, p.page)) =
      [fileA, fileFail, fileB].flatMap
        (fun f => (extractedPages f).map (fun p => (f.original_name, p))) :=
  process_documents_page_numbering [fileA, fileFail, fileB] mergedPagesABF mergedTextABF
    (by rfl)

/-- Claim C8: a file whose extraction failed is skipped and processing
continues identically on the remaining files; and when every file
contributes zero pages (all failed, or an empty submission list),
`process_documents` signals the terminal no-extractable-content failure. -/
theorem process_documents_failure_policy (files : List FileResult) :
    ((∀ f ∈ files, extractedPages f = []) →
      process_documents files = Except.error "Failed to extract text from any documents") ∧
    ∀ f : FileResult, f.extraction = none →
      process_documents (f :: files) = process_documents files := by
  constructor
  · intro hall
    obtain ⟨nw, h1, h2, h3⟩ := mergeFiles_spec files [] "" 1
    have hnil : nw.map (fun p => (p.source_file, p.page)) = [] := by
      rw [h3]
      exact List.flatMap_eq_nil_iff.mpr (fun f hf => by rw [hall f hf]; rfl)
    have hnw : nw = [] := List.map_eq_nil_iff.mp hnil
    have hempty : (mergeFiles files [] "" 1).1 = [] := by
      rw [h1, hnw]
      rfl
    simp [process_documents, hempty]
  · intro f hf
    simp only [process_documents, mergeFiles, hf]

/-- Claim C8 (witness): the empty submission and a single failed file both
produce the terminal failure; the failed file is skipped exactly. -/
theorem process_documents_failure_policy_witness :
    process_documents ([] : List FileResult) =
      Except.error "Failed to extract text from any documents" ∧
    process_documents [fileFail] = process_documents [] :=
  ⟨(process_documents_failure_policy []).1 (by simp),
   (process_documents_failure_policy []).2 fileFail (by decide)⟩

end KMRLSpec
